import Mathlib

/-!
Verification development for the `node-di-container-lambda` library.

The embedding translates the TypeScript sources into Lean:
  * `src/Error.ts` — the `NameAwareError` base class;
  * `src/Environment.ts` — the environment accessor;
  * `src/Container.ts` — the lazily-memoizing service container;
  * `src/Lambda.ts` — the request/response adapter and the handler wrapper.

JavaScript values that may be `undefined` are embedded as `Option`;
a thrown exception is embedded as the `Except.error` branch; `async`
control flow is embedded by distinguishing the three observable outcomes
of calling a promise-returning function (synchronous throw, resolution,
rejection).  `JSON.parse` is a platform primitive and is passed in as an
explicit function parameter `parse : String → Option Json` (returning
`none` when the platform parser would throw); `JSON.stringify` is
embedded concretely below.
-/

namespace NodeDi

/-! ## JSON values and `JSON.stringify`

JavaScript `JSON.stringify` serializes a JSON-representable value to a
string.  The mutual inductive mirrors the JSON value domain; numbers are
restricted to integers (the only numbers reached by this development).
-/

mutual

inductive Json where
  | null : Json
  | bool (b : Bool) : Json
  | num (n : Int) : Json
  | str (s : String) : Json
  | arr (elems : JsonArray) : Json
  | obj (fields : JsonObject) : Json

inductive JsonArray where
  | nil : JsonArray
  | cons (hd : Json) (tl : JsonArray) : JsonArray

inductive JsonObject where
  | nil : JsonObject
  | cons (key : String) (val : Json) (tl : JsonObject) : JsonObject

end

/-- Lower-case hexadecimal digit, as emitted by `JSON.stringify` for
control-character escapes. -/
def hexDigit (n : Nat) : Char :=
  if n < 10 then Char.ofNat (48 + n) else Char.ofNat (87 + n)

/-- The escape of one character inside a JSON string literal, following
ECMA-262 `QuoteJSONString`: quote and backslash are escaped, the named
control escapes are used, remaining C0 control characters become
`\u00xx`, and every other character is emitted verbatim. -/
def escapeChar (c : Char) : String :=
  if c = '"' then "\\\""
  else if c = '\\' then "\\\\"
  else if c.toNat = 8 then "\\b"
  else if c.toNat = 12 then "\\f"
  else if c = '\n' then "\\n"
  else if c = '\r' then "\\r"
  else if c = '\t' then "\\t"
  else if c.toNat < 32 then
    "\\u00" ++ String.singleton (hexDigit (c.toNat / 16))
            ++ String.singleton (hexDigit (c.toNat % 16))
  else String.singleton c

/-- Escape a whole string for inclusion in a JSON string literal. -/
def escapeString (s : String) : String :=
  s.data.foldl (fun acc c => acc ++ escapeChar c) ""

mutual

/-- Embedding of `JSON.stringify` on JSON-representable values. -/
def Json.stringify : Json → String
  | .null => "null"
  | .bool b => if b then "true" else "false"
  | .num n => toString n
  | .str s => "\"" ++ escapeString s ++ "\""
  | .arr elems => "[" ++ JsonArray.stringifyElems elems ++ "]"
  | .obj fields => "\x7b" ++ JsonObject.stringifyFields fields ++ "\x7d"

/-- Comma-separated serialization of the elements of a JSON array. -/
def JsonArray.stringifyElems : JsonArray → String
  | .nil => ""
  | .cons hd .nil => Json.stringify hd
  | .cons hd tl => Json.stringify hd ++ "," ++ JsonArray.stringifyElems tl

/-- Comma-separated serialization of the fields of a JSON object. -/
def JsonObject.stringifyFields : JsonObject → String
  | .nil => ""
  | .cons k v .nil => "\"" ++ escapeString k ++ "\":" ++ Json.stringify v
  | .cons k v tl =>
      "\"" ++ escapeString k ++ "\":" ++ Json.stringify v ++ ","
        ++ JsonObject.stringifyFields tl

end

/-- JavaScript string length (`s.length`): the number of UTF-16 code
units, i.e. characters outside the Basic Multilingual Plane count
twice. -/
def jsStringLength (s : String) : Nat :=
  s.data.foldl (fun n c => n + (if c.toNat < 65536 then 1 else 2)) 0

/-- UTF-8 byte length of a string (the "byte length" a correct
`content-length` header would report for a UTF-8 encoded body). -/
def utf8Length (s : String) : Nat :=
  s.data.foldl (fun n c => n + c.utf8Size) 0

/-! ## `src/Error.ts` -/

/-- Embedding of the `NameAwareError` class: an `Error` whose `name`
field is set to the given error-kind identifier, whose `message` field
holds the human-readable message, and whose extra `error` field
duplicates the message. -/
structure NameAwareError where
  name : String
  error : String
  message : String

/-- The `NameAwareError` constructor: `super(message)` sets `message`,
then `name` and `error` are assigned. -/
def NameAwareError.create (name message : String) : NameAwareError :=
  ⟨name, message, message⟩

/-! ## `src/Environment.ts` -/

/-- Constant `MissingEnvironmentVariableErrorName` from `src/Environment.ts`. -/
def MissingEnvironmentVariableErrorName : String :=
  "MissingEnvironmentVariableError"

/-- Embedding of the `MissingEnvironmentVariableError` constructor. -/
def MissingEnvironmentVariableError (key : String) : NameAwareError :=
  NameAwareError.create MissingEnvironmentVariableErrorName
    ("Cannot find \"" ++ key ++ "\" in the environment!")

/-- Embedding of the `Environment` class: a key/value search mapping
(`undefined` values embedded as `none`).  Environment values are
strings or numbers in the source; the distinction plays no role here,
so values are embedded as strings. -/
structure Environment where
  search : String → Option String

/-- Embedding of `Environment.get`: return the stored value, or throw
`MissingEnvironmentVariableError` when it is `undefined`. -/
def Environment.get (env : Environment) (key : String) :
    Except NameAwareError String :=
  match env.search key with
  | none => .error (MissingEnvironmentVariableError key)
  | some value => .ok value

/-! ## `src/Container.ts`

The cache of the container is a mapping from service name to the cached
instance; a JavaScript property holding `undefined` is indistinguishable
from an absent property under the `!== undefined` check the code uses,
so the cache is embedded as `String → Option Val` with `none` playing
the role of `undefined`/absent.

An initiator is an asynchronous factory that receives the container (so
it can request other services, mutating the cache) awaits, and either
resolves — possibly to `undefined`, embedded as `Option Val` — or
rejects.  It is embedded as a function from the cache it observes to its
outcome paired with the cache as it stands when the initiator settles
(JavaScript exceptions do not roll back state, so the error branch also
carries the resulting cache). -/

/-- The instance cache of the container (the `cache` field, a partial record). -/
def Cache (Val : Type) : Type := String → Option Val

/-- A service initiator (`ContainerServiceInitiator`), embedded as
described above. -/
def Initiator (Val : Type) : Type :=
  Cache Val → Except NameAwareError (Option Val) × Cache Val

/-- Constant `ContainerMissingServiceErrorName` from `src/Container.ts`. -/
def ContainerMissingServiceErrorName : String :=
  "ContainerMissingServiceInitiatorError"

/-- Embedding of the `ContainerMissingServiceError` constructor: the
two message sentences are joined with a single space. -/
def ContainerMissingServiceError (service : String) : NameAwareError :=
  NameAwareError.create ContainerMissingServiceErrorName
    ("The service \"" ++ service ++ "\" has no initiator provided."
      ++ " " ++ "Please provide an initiator for this service before calling it.")

/-- Embedding of the `Container` class state: the injected environment,
the immutable initiator map (`none` for names with no initiator), and
the mutable cache. -/
structure Container (Val : Type) where
  environment : Environment
  initiator : String → Option (Initiator Val)
  cache : Cache Val

/-- Embedding of `Container.env`: quick access to the environment. -/
def Container.env (c : Container Val) (key : String) :
    Except NameAwareError String :=
  c.environment.get key

/-- The observable outcome of one `Container.service` call: the value
returned (or error thrown), the container state afterwards, and whether
the initiator of the requested name was invoked during the call. -/
structure ServiceOutcome (Val : Type) where
  result : Except NameAwareError (Option Val)
  state : Container Val
  invokedInitiator : Bool

/-- Embedding of `Container.service`, line by line: read the cache; if
the cached value is not `undefined`, return it; otherwise look up the
initiator, throwing `ContainerMissingServiceError` when it is
`undefined`; otherwise invoke and await the initiator, store the
constructed value in the cache under the requested name, and return
it. -/
def Container.service (c : Container Val) (name : String) :
    ServiceOutcome Val :=
  match c.cache name with
  | some cached => ⟨.ok (some cached), c, false⟩
  | none =>
    match c.initiator name with
    | none => ⟨.error (ContainerMissingServiceError name), c, false⟩
    | some init =>
      match init c.cache with
      | (.error e, cacheAfter) =>
          ⟨.error e, ⟨c.environment, c.initiator, cacheAfter⟩, true⟩
      | (.ok constructed, cacheAfter) =>
          ⟨.ok constructed,
           ⟨c.environment, c.initiator,
             fun n => if n = name then constructed else cacheAfter n⟩,
           true⟩

/-! ## `src/Lambda.ts` — request/response adapter

`src/src/Lambda.ts` is the primary (typed) copy of this module; the
repository also contains an earlier revision of the same module (an
unnamed source file) whose `createLambdaRequest` parses the body
unconditionally and whose wrapper carries an optional error handler.
Both are embedded below; the comment of each definition names its source. -/

/-- A JavaScript string-to-string record (`StringMap`), embedded as an
association list in property order. -/
def StringMap : Type := List (String × String)

/-- Property access on a `StringMap`: the value at the first matching
key, or `none` for `undefined` when the key is absent. -/
def StringMap.get : StringMap → String → Option String
  | [], _ => none
  | (k, v) :: rest, key => if k = key then some v else StringMap.get rest key

/-- A record of string lists (used for the multi-value header/query
fields of the proxy event). -/
def MultiValueMap : Type := List (String × List String)

/-- The part of the API Gateway request context this library reads
(`requestContext.requestId` and `requestContext.stage`); the object is
otherwise copied verbatim. -/
structure APIGatewayEventRequestContext where
  requestId : String
  stage : String

/-- Embedding of the inbound `APIGatewayProxyEvent` shape consumed by
`createLambdaRequest` (nullable fields embedded as `Option`). -/
structure APIGatewayProxyEvent where
  httpMethod : String
  path : String
  headers : StringMap
  pathParameters : Option StringMap
  queryStringParameters : Option StringMap
  body : Option String
  isBase64Encoded : Bool
  multiValueHeaders : MultiValueMap
  multiValueQueryStringParameters : Option MultiValueMap
  stageVariables : Option StringMap
  requestContext : APIGatewayEventRequestContext
  resource : String

/-- Embedding of the sanitized `LambdaRequest` type of
`src/src/Lambda.ts`.  The body type parameter `B` is instantiated with
`Option Json` (`none` is the `undefined` default); the path/query
parameter types are instantiated with `StringMap`. -/
structure LambdaRequest where
  httpMethod : String
  pathParameters : StringMap
  queryStringParameters : StringMap
  body : Option Json
  path : String
  headers : StringMap
  isBase64Encoded : Bool
  multiValueHeaders : MultiValueMap
  multiValueQueryStringParameters : Option MultiValueMap
  stageVariables : Option StringMap
  requestContext : APIGatewayEventRequestContext
  resource : String

/-- Embedding of `createLambdaRequest` from `src/src/Lambda.ts`:
`body` starts as `undefined`; only when the event's `content-type`
header is exactly `application/json` and the raw body is a non-empty
string is `JSON.parse` attempted, its failure caught and swallowed
(`parse` returns `none` where `JSON.parse` would throw, so `body`
keeps its default).  All other fields are copied, with `null` path and
query parameters replaced by empty records. -/
def createLambdaRequest (parse : String → Option Json)
    (event : APIGatewayProxyEvent) : LambdaRequest :=
  let body : Option Json :=
    if event.headers.get "content-type" = some "application/json" then
      match event.body with
      | some raw => if raw ≠ "" then parse raw else none
      | none => none
    else none
  { httpMethod := event.httpMethod
    pathParameters :=
      match event.pathParameters with
      | none => []
      | some p => p
    queryStringParameters :=
      match event.queryStringParameters with
      | none => []
      | some q => q
    body := body
    path := event.path
    headers := event.headers
    isBase64Encoded := event.isBase64Encoded
    multiValueHeaders := event.multiValueHeaders
    multiValueQueryStringParameters := event.multiValueQueryStringParameters
    stageVariables := event.stageVariables
    requestContext := event.requestContext
    resource := event.resource }

/-- Embedding of the normalized request type of the earlier revision of
the module: id/stage are lifted out of the request context, and the
body default is the empty object. -/
structure LambdaRequestLegacy where
  id : String
  stage : String
  method : String
  path : String
  headers : StringMap
  params : StringMap
  query : StringMap
  body : Json

/-- Embedding of `createLambdaRequest` from the earlier revision of the
module: the body defaults to the empty object and `JSON.parse` is
attempted on every non-empty string body, with no content-type gate. -/
def createLambdaRequestLegacy (parse : String → Option Json)
    (event : APIGatewayProxyEvent) : LambdaRequestLegacy :=
  let body : Json :=
    match event.body with
    | some raw =>
        if raw ≠ "" then
          match parse raw with
          | some parsed => parsed
          | none => Json.obj .nil
        else Json.obj .nil
    | none => Json.obj .nil
  { id := event.requestContext.requestId
    stage := event.requestContext.stage
    method := event.httpMethod
    path := event.path
    headers := event.headers
    params :=
      match event.pathParameters with
      | none => []
      | some p => p
    query :=
      match event.queryStringParameters with
      | none => []
      | some q => q
    body := body }

/-- Constant `ResponseHeader.ContentType` from `src/http/response.ts`. -/
def ResponseHeader.ContentType : String := "content-type"

/-- Constant `ResponseHeader.ContentLength` from `src/http/response.ts`. -/
def ResponseHeader.ContentLength : String := "content-length"

/-- Constant `ResponseHeader.AccessControlAllowOrigin` from `src/http/response.ts`. -/
def ResponseHeader.AccessControlAllowOrigin : String :=
  "access-control-allow-origin"

/-- Constant `ResponseHeader.AccessControlAllowHeaders` from `src/http/response.ts`. -/
def ResponseHeader.AccessControlAllowHeaders : String :=
  "access-control-allow-headers"

/-- Constant `ResponseHeader.AccessControlAllowMethods` from `src/http/response.ts`. -/
def ResponseHeader.AccessControlAllowMethods : String :=
  "access-control-allow-methods"

/-- Constant `ResponseHeader.AccessControlAllowCredentials` from
`src/http/response.ts`. -/
def ResponseHeader.AccessControlAllowCredentials : String :=
  "access-control-allow-credentials"

/-- Embedding of `ResponseKind` from `src/http/response.ts`: a numeric
status and a JSON-serializable payload. -/
structure ResponseKind where
  status : Nat
  data : Json

/-- Embedding of `LambdaProxyResponse`: the wire response shape. -/
structure LambdaProxyResponse where
  statusCode : Nat
  headers : StringMap
  body : String

/-- Embedding of `createLambdaProxyResponse`: serialize the payload with
`JSON.stringify`, copy the status verbatim, and attach the six fixed
headers.  `String(json.length)` is the JavaScript string length of the
serialized body — UTF-16 code units, see `jsStringLength` — not its
UTF-8 byte length. -/
def createLambdaProxyResponse (response : ResponseKind) :
    LambdaProxyResponse :=
  let json := Json.stringify response.data
  { statusCode := response.status
    headers :=
      [(ResponseHeader.ContentType, "application/json"),
       (ResponseHeader.ContentLength, toString (jsStringLength json)),
       (ResponseHeader.AccessControlAllowOrigin, "*"),
       (ResponseHeader.AccessControlAllowHeaders, "*"),
       (ResponseHeader.AccessControlAllowMethods, "*"),
       (ResponseHeader.AccessControlAllowCredentials, "*")]
    body := json }

/-! ## `src/Lambda.ts` — handler wrapper

A caller-supplied handler is a promise-returning JavaScript function.
Calling it has three observable outcomes: it throws synchronously
before producing a promise, or the promise resolves with a value, or
the promise rejects with an error.  `HandlerOutcome` enumerates these;
a handler is embedded as a function from its (relevant) argument to its
outcome. -/

/-- A JavaScript `Error` as observed at the wrapper boundary: its
`name`, `message`, and optional `stack` string. -/
structure JsError where
  name : String
  message : String
  stack : Option String

/-- The observable outcome of calling a promise-returning function. -/
inductive HandlerOutcome (O : Type) where
  | syncThrow (e : JsError) : HandlerOutcome O
  | resolve (o : O) : HandlerOutcome O
  | reject (e : JsError) : HandlerOutcome O

/-- The `stack` lines of the synthesized 500 payload: the optional
stack string split on newline characters, defaulting to the empty
list when the stack is absent. -/
def stackLines : Option String → List String
  | none => []
  | some s => s.splitOn "\n"

/-- Turn a list of strings into a JSON array of strings. -/
def JsonArray.ofStrings : List String → JsonArray
  | [] => .nil
  | s :: rest => .cons (Json.str s) (JsonArray.ofStrings rest)

/-- The `data` payload of the synthesized 500 response of the wrapper:
the name, message, and stack-split-into-lines of the caught error.
(The surrounding object literal also carries a `type` property holding
`internal.error`, which `createLambdaProxyResponse` never reads.) -/
def errorResponseData (e : JsError) : Json :=
  Json.obj
    (.cons "name" (.str e.name)
      (.cons "message" (.str e.message)
        (.cons "stack" (.arr (JsonArray.ofStrings (stackLines e.stack)))
          .nil)))

/-- Embedding of `LambdaWrapper.restApiProxy` from `src/src/Lambda.ts`
applied to one event: decode the event, `await` the caller handler on
the normalized request, and encode its response; any error caught at
the boundary (a synchronous throw or an awaited rejection) is shaped
into a status-500 `ResponseKind` and encoded through the same
`createLambdaProxyResponse`.  The `Except.error` branch of the return
type would be an error escaping to the hosting runtime; the wrapper
never produces it. -/
def LambdaWrapper.restApiProxy
    (handler : LambdaRequest → HandlerOutcome ResponseKind)
    (parse : String → Option Json) (event : APIGatewayProxyEvent) :
    Except JsError LambdaProxyResponse :=
  let request := createLambdaRequest parse event
  match handler request with
  | .resolve response => .ok (createLambdaProxyResponse response)
  | .syncThrow e => .ok (createLambdaProxyResponse ⟨500, errorResponseData e⟩)
  | .reject e => .ok (createLambdaProxyResponse ⟨500, errorResponseData e⟩)

/-- The observable outcome of one `handle`-wrapped invocation: what the
hosting runtime sees, and whether the caller-registered error handler
function was invoked. -/
structure HandleOutcome (O : Type) where
  result : Except JsError O
  errorHandlerNotified : Bool

/-- Embedding of `LambdaWrapper.handle` from the earlier revision of the
module (the only revision with `registerErrorHandler`), applied to one
event.  Its body is `try { return handler(...) } catch { handleError;
throw }` — the promise built by the handler is returned from inside the `try`
WITHOUT `await`, so only a synchronous throw reaches the `catch` block
(notifying the registered error handler, then rethrowing); a rejected
promise is returned as-is and its error reaches the hosting runtime
without the catch block ever running.  `errorHandlerRegistered` states
whether `registerErrorHandler` was called; `handleError` invokes the
registered handler only when one is present. -/
def LambdaWrapper.handle (errorHandlerRegistered : Bool)
    (handler : E → HandlerOutcome O) (event : E) : HandleOutcome O :=
  match handler event with
  | .resolve o => ⟨.ok o, false⟩
  | .syncThrow e => ⟨.error e, errorHandlerRegistered⟩
  | .reject e => ⟨.error e, false⟩

/-- Embedding of `LambdaWrapper.handle` from `src/src/Lambda.ts`: a
plain passthrough with no `try`/`catch` and no error-handler feature —
every handler error propagates to the hosting runtime unmodified. -/
def LambdaWrapper.handlePassthrough (handler : E → HandlerOutcome O)
    (event : E) : Except JsError O :=
  match handler event with
  | .resolve o => .ok o
  | .syncThrow e => .error e
  | .reject e => .error e

/-! ## Concrete instances used by witnesses and counterexamples -/

/-- An environment with no variables. -/
def emptyEnvironment : Environment := ⟨fun _ => none⟩

/-- An initiator that resolves to `undefined` and touches nothing. -/
def natUndefinedInitiator : Initiator Nat := fun cache => (Except.ok none, cache)

/-- An initiator that resolves to the defined value `1`. -/
def natOneInitiator : Initiator Nat := fun cache => (Except.ok (some 1), cache)

/-- A container whose service `a` has an initiator resolving to
`undefined`, with an initially empty cache. -/
def undefinedResolvingContainer : Container Nat :=
  ⟨emptyEnvironment, fun n => if n = "a" then some natUndefinedInitiator else none,
    fun _ => none⟩

/-- A container whose service `a` has an initiator resolving to `1`,
with an initially empty cache. -/
def definedResolvingContainer : Container Nat :=
  ⟨emptyEnvironment, fun n => if n = "a" then some natOneInitiator else none,
    fun _ => none⟩

/-- A container with no initiators and an empty cache. -/
def emptyContainer : Container Nat :=
  ⟨emptyEnvironment, fun _ => none, fun _ => none⟩

/-- A platform JSON parser that fails on every input (every input is
treated as invalid JSON). -/
def parseNone : String → Option Json := fun _ => none

/-- A platform JSON parser that succeeds on every input, returning the
JSON number `1`. -/
def parseOne : String → Option Json := fun _ => some (Json.num 1)

/-- A sample request context. -/
def requestContextSample : APIGatewayEventRequestContext := ⟨"req-1", "prod"⟩

/-- A minimal inbound event: no headers, no body, null path and query
parameters. -/
def sampleEvent : APIGatewayProxyEvent :=
  ⟨"GET", "/x", [], none, none, none, false, [], none, none, requestContextSample, "/x"⟩

/-- An inbound event declaring a JSON content type whose raw body is a
non-empty string that is not valid JSON. -/
def jsonHeaderEvent : APIGatewayProxyEvent :=
  ⟨"POST", "/x", [("content-type", "application/json")], none, none,
    some "\x7bnot valid", false, [], none, none, requestContextSample, "/x"⟩

/-- An inbound event with a non-JSON content type and a non-empty body
that would parse as JSON. -/
def textHeaderEvent : APIGatewayProxyEvent :=
  ⟨"POST", "/x", [("content-type", "text/plain")], none, none,
    some "1", false, [], none, none, requestContextSample, "/x"⟩

/-- The error thrown by a handler that throws `Error` with message
`boom` (no stack recorded). -/
def boomError : JsError := ⟨"Error", "boom", none⟩

/-- A handler that throws `boom` synchronously. -/
def boomHandler : LambdaRequest → HandlerOutcome ResponseKind :=
  fun _ => HandlerOutcome.syncThrow boomError

/-- A handler that resolves with status 200 and an empty object. -/
def okHandler : LambdaRequest → HandlerOutcome ResponseKind :=
  fun _ => HandlerOutcome.resolve ⟨200, Json.obj .nil⟩

/-- A raw-event handler whose returned promise rejects with `boom`. -/
def rejectingUnitHandler : Unit → HandlerOutcome Unit :=
  fun _ => HandlerOutcome.reject boomError

/-- A response payload containing a non-ASCII character, whose
serialized form has different JavaScript-string and UTF-8 lengths. -/
def respUnicode : ResponseKind := ⟨200, Json.str "é"⟩

/-! ## Claims about the container -/

/-- Claim C2 (confirmed): for every service name with no entry in the
initiator map and no cached instance, `Container.service` fails with the
`ContainerMissingServiceError`, whose stable error-kind `name` field is
`ContainerMissingServiceInitiatorError` and is distinct from its
human-readable message; no initiator is invoked and the container state
(in particular the cache) is unchanged. -/
theorem container_missing_initiator (Val : Type) (c : Container Val) (name : String)
    (hcache : c.cache name = none) (hinit : c.initiator name = none) :
    (c.service name).result = .error (ContainerMissingServiceError name) ∧
    (ContainerMissingServiceError name).name = ContainerMissingServiceErrorName ∧
    (ContainerMissingServiceError name).message =
      ("The service \"" ++ name ++ "\" has no initiator provided."
        ++ " " ++ "Please provide an initiator for this service before calling it.") ∧
    (ContainerMissingServiceError name).name ≠ (ContainerMissingServiceError name).message ∧
    (c.service name).invokedInitiator = false ∧
    (c.service name).state = c := by
  refine ⟨?_, rfl, rfl, ?_, ?_, ?_⟩
  · simp [Container.service, hcache, hinit]
  · intro h
    have hl := congrArg String.length h
    have l1 : ("ContainerMissingServiceInitiatorError" : String).length = 37 := by decide
    have l2 : ("The service \"" : String).length = 13 := by decide
    have l3 : ("\" has no initiator provided." : String).length = 28 := by decide
    have l4 : (" " : String).length = 1 := by decide
    have l5 : ("Please provide an initiator for this service before calling it." : String).length = 63 := by decide
    simp [ContainerMissingServiceError, NameAwareError.create,
      ContainerMissingServiceErrorName, String.length_append, l1, l2, l3, l4, l5] at hl
  · simp [Container.service, hcache, hinit]
  · simp [Container.service, hcache, hinit]

/-- Witness for C2: the missing-initiator behavior evaluated on a
concrete container and service name. -/
theorem container_missing_wit :
    emptyContainer.cache "missing" = none ∧
    emptyContainer.initiator "missing" = none ∧
    ((emptyContainer.service "missing").result =
        .error (ContainerMissingServiceError "missing") ∧
      (ContainerMissingServiceError "missing").name = ContainerMissingServiceErrorName ∧
      (ContainerMissingServiceError "missing").message =
        ("The service \"" ++ "missing" ++ "\" has no initiator provided."
          ++ " " ++ "Please provide an initiator for this service before calling it.") ∧
      (ContainerMissingServiceError "missing").name ≠ (ContainerMissingServiceError "missing").message ∧
      (emptyContainer.service "missing").invokedInitiator = false ∧
      (emptyContainer.service "missing").state = emptyContainer) :=
  ⟨rfl, rfl, container_missing_initiator Nat emptyContainer "missing" rfl rfl⟩

/-- Claim C1 (corrected): as stated the claim fails — an initiator that
resolves to `undefined` is re-invoked by the second call because the
cache check tests for definedness (see C10).  Amended claim: for every
service name present in the initiator map whose first `service` call
resolves to a defined instance, the second sequential call returns the
same result and, across the two calls, the initiator of that name is
invoked at most once. -/
theorem container_service_memoizes (Val : Type) (c : Container Val) (name : String)
    (init : Initiator Val) (hinit : c.initiator name = some init)
    (v : Val) (hres : (c.service name).result = .ok (some v)) :
    ((c.service name).state.service name).result = (c.service name).result ∧
    (cond (c.service name).invokedInitiator 1 0)
      + (cond ((c.service name).state.service name).invokedInitiator 1 0) ≤ 1 := by
  rcases hc : c.cache name with _ | cached
  · rcases hi2 : init c.cache with ⟨e | r, cacheAfter⟩
    · simp [Container.service, hc, hinit, hi2] at hres
    · simp [Container.service, hc, hinit, hi2] at hres ⊢
      subst hres
      simp
  · simp [Container.service, hc]

/-- Counterexample for C1 as stated: in `undefinedResolvingContainer`
the service `a` is present in the initiator map, yet two sequential
`service` calls each invoke its initiator (it resolves to
`undefined`), contradicting the at-most-once invocation claim. -/
theorem container_memoizes_cex :
    (undefinedResolvingContainer.initiator "a").isSome = true ∧
    (undefinedResolvingContainer.service "a").invokedInitiator = true ∧
    ((undefinedResolvingContainer.service "a").state.service "a").invokedInitiator = true :=
  ⟨rfl, rfl, rfl⟩

/-- Witness for the amended C1: memoization evaluated on a concrete
container whose initiator resolves to the defined value `1`. -/
theorem container_memoizes_wit :
    definedResolvingContainer.initiator "a" = some natOneInitiator ∧
    (definedResolvingContainer.service "a").result = .ok (some 1) ∧
    (((definedResolvingContainer.service "a").state.service "a").result =
        (definedResolvingContainer.service "a").result ∧
      (cond (definedResolvingContainer.service "a").invokedInitiator 1 0)
        + (cond ((definedResolvingContainer.service "a").state.service "a").invokedInitiator 1 0) ≤ 1) :=
  ⟨rfl, rfl, container_service_memoizes Nat definedResolvingContainer "a" natOneInitiator rfl 1 rfl⟩

/-- Claim C10 (confirmed): when the first `service` call resolves to
`undefined`, the stored result is not treated as cached — that call
invoked the initiator, and the immediately following call invokes it
again. -/
theorem container_service_undefined_reinvokes (Val : Type) (c : Container Val)
    (name : String) (hres : (c.service name).result = .ok none) :
    (c.service name).invokedInitiator = true ∧
    ((c.service name).state.service name).invokedInitiator = true := by
  rcases hc : c.cache name with _ | cached
  · rcases hi : c.initiator name with _ | init
    · simp [Container.service, hc, hi] at hres
    · rcases hi2 : init c.cache with ⟨e | r, cacheAfter⟩
      · simp [Container.service, hc, hi, hi2] at hres
      · simp [Container.service, hc, hi, hi2] at hres
        subst hres
        rcases hi3 : init (fun n => if n = name then none else cacheAfter n) with ⟨e2 | r2, cache2⟩ <;>
          simp [Container.service, hc, hi, hi2, hi3]
  · simp [Container.service, hc] at hres

/-- Witness for C10: re-invocation evaluated on a concrete container
whose initiator resolves to `undefined`. -/
theorem container_undefined_wit :
    (undefinedResolvingContainer.service "a").result = .ok none ∧
    ((undefinedResolvingContainer.service "a").invokedInitiator = true ∧
      ((undefinedResolvingContainer.service "a").state.service "a").invokedInitiator = true) :=
  ⟨rfl, container_service_undefined_reinvokes Nat undefinedResolvingContainer "a" rfl⟩

/-! ## Claims about the adapter and the wrapper -/

/-- Claim C3 (confirmed): in the HTTP-adapter path, every error raised
at the wrapper boundary — the decode step of the model is total, and
any synchronous throw or awaited rejection of the caller handler is
caught — produces a wire response with status code 500 whose JSON body
carries the name, message, and stack-split-into-lines of the error;
no error escapes to the hosting runtime (the outcome is `Except.ok`). -/
theorem restApiProxy_errors_become_500
    (handler : LambdaRequest → HandlerOutcome ResponseKind)
    (parse : String → Option Json) (event : APIGatewayProxyEvent) (e : JsError)
    (h : handler (createLambdaRequest parse event) = HandlerOutcome.syncThrow e ∨
         handler (createLambdaRequest parse event) = HandlerOutcome.reject e) :
    LambdaWrapper.restApiProxy handler parse event =
      Except.ok (createLambdaProxyResponse ⟨500, errorResponseData e⟩) ∧
    (createLambdaProxyResponse ⟨500, errorResponseData e⟩).statusCode = 500 ∧
    (createLambdaProxyResponse ⟨500, errorResponseData e⟩).body =
      Json.stringify (errorResponseData e) := by
  refine ⟨?_, rfl, rfl⟩
  rcases h with h | h <;> simp [LambdaWrapper.restApiProxy, h]

/-- Witness for C3: a handler throwing `Error` with message `boom`
yields a 500 wire response whose body contains `"message":"boom"`. -/
theorem restApiProxy_errors_wit :
    (boomHandler (createLambdaRequest parseNone sampleEvent) =
        HandlerOutcome.syncThrow boomError ∨
      boomHandler (createLambdaRequest parseNone sampleEvent) =
        HandlerOutcome.reject boomError) ∧
    (LambdaWrapper.restApiProxy boomHandler parseNone sampleEvent =
        Except.ok (createLambdaProxyResponse ⟨500, errorResponseData boomError⟩) ∧
      (createLambdaProxyResponse ⟨500, errorResponseData boomError⟩).statusCode = 500 ∧
      (createLambdaProxyResponse ⟨500, errorResponseData boomError⟩).body =
        Json.stringify (errorResponseData boomError)) ∧
    (createLambdaProxyResponse ⟨500, errorResponseData boomError⟩).body =
      "\x7b\"name\":\"Error\",\"message\":\"boom\",\"stack\":[]\x7d" :=
  ⟨Or.inl rfl,
   restApiProxy_errors_become_500 boomHandler parseNone sampleEvent boomError (Or.inl rfl),
   rfl⟩

/-- Claim C4 (code bug): the claim says every handler error in the
raw-event path is first notified to the registered optional error
handler and then rethrown unmodified.  The catch-notify-rethrow block
exists, but the handler promise is returned from inside the `try`
without `await`, so a rejected promise — the ordinary failure mode of
an async handler — bypasses the catch block: below, with an error
handler registered, the rejection propagates unmodified (never becoming
an HTTP response) but the error handler is never invoked.  The primary
module copy has no error-handler feature at all and likewise propagates
the error unmodified. -/
theorem handle_reject_bypasses_error_handler :
    (LambdaWrapper.handle true rejectingUnitHandler ()).result = Except.error boomError ∧
    (LambdaWrapper.handle true rejectingUnitHandler ()).errorHandlerNotified = false ∧
    LambdaWrapper.handlePassthrough rejectingUnitHandler () = Except.error boomError :=
  ⟨rfl, rfl, rfl⟩

/-- Claim C5 (confirmed): `createLambdaRequest` parses the raw body only
when the `content-type` header of the event is `application/json`; for
every event whose content type differs, the body of the normalized
request stays the `undefined` default even when the raw body is a
non-empty string the platform parser would accept. -/
theorem createLambdaRequest_body_gated (parse : String → Option Json)
    (event : APIGatewayProxyEvent) (raw : String) (j : Json)
    (hct : event.headers.get "content-type" ≠ some "application/json")
    (_hbody : event.body = some raw) (_hne : raw ≠ "")
    (_hparse : parse raw = some j) :
    (createLambdaRequest parse event).body = none := by
  simp [createLambdaRequest, hct]

/-- Witness for C5: an event with content type `text/plain` and a
parseable non-empty body decodes to an `undefined` body. -/
theorem createLambdaRequest_body_gated_wit :
    (textHeaderEvent.headers.get "content-type" ≠ some "application/json") ∧
    textHeaderEvent.body = some "1" ∧ ("1" : String) ≠ "" ∧
    parseOne "1" = some (Json.num 1) ∧
    (createLambdaRequest parseOne textHeaderEvent).body = none :=
  ⟨by decide, rfl, by decide, rfl,
   createLambdaRequest_body_gated parseOne textHeaderEvent "1" (Json.num 1)
     (by decide) rfl (by decide) rfl⟩

/-- Claim C7 (confirmed): for every event declaring the JSON content
type whose non-empty raw body the platform parser rejects,
`createLambdaRequest` returns normally with an `undefined` body — the
parse failure is swallowed by the try/catch and never raised. -/
theorem createLambdaRequest_swallows_bad_json (parse : String → Option Json)
    (event : APIGatewayProxyEvent) (raw : String)
    (hct : event.headers.get "content-type" = some "application/json")
    (hbody : event.body = some raw) (hne : raw ≠ "") (hparse : parse raw = none) :
    (createLambdaRequest parse event).body = none := by
  simp [createLambdaRequest, hct, hbody, hne, hparse]

/-- Witness for C7: a malformed body with a JSON content type decodes
to an `undefined` body. -/
theorem createLambdaRequest_swallows_bad_json_wit :
    jsonHeaderEvent.headers.get "content-type" = some "application/json" ∧
    jsonHeaderEvent.body = some "\x7bnot valid" ∧
    ("\x7bnot valid" : String) ≠ "" ∧ parseNone "\x7bnot valid" = none ∧
    (createLambdaRequest parseNone jsonHeaderEvent).body = none :=
  ⟨rfl, rfl, by decide, rfl,
   createLambdaRequest_swallows_bad_json parseNone jsonHeaderEvent "\x7bnot valid"
     rfl rfl (by decide) rfl⟩

/-- Claim C8 (confirmed): a `null` path-parameter or query-parameter
field of the inbound event decodes to an empty mapping in the
normalized request, never `null` (the normalized fields are not
nullable and are the empty record in that case). -/
theorem createLambdaRequest_null_params_empty (parse : String → Option Json)
    (event : APIGatewayProxyEvent) :
    (event.pathParameters = none →
      (createLambdaRequest parse event).pathParameters = []) ∧
    (event.queryStringParameters = none →
      (createLambdaRequest parse event).queryStringParameters = []) := by
  constructor <;> intro h <;> simp [createLambdaRequest, h]

/-- Witness for C8: the empty-mapping defaults evaluated on an event
with null path and query parameters. -/
theorem createLambdaRequest_null_params_empty_wit :
    sampleEvent.pathParameters = none ∧
    sampleEvent.queryStringParameters = none ∧
    (createLambdaRequest parseNone sampleEvent).pathParameters = [] ∧
    (createLambdaRequest parseNone sampleEvent).queryStringParameters = [] :=
  ⟨rfl, rfl,
   (createLambdaRequest_null_params_empty parseNone sampleEvent).1 rfl,
   (createLambdaRequest_null_params_empty parseNone sampleEvent).2 rfl⟩

/-- Claim C9 (confirmed): `createLambdaRequest` and
`createLambdaProxyResponse` are pure functions of their inputs, so two
runs of the wrapped decode-handler-encode pipeline on identical input
events with identical handler behavior produce identical wire
responses, in particular byte-identical bodies and headers. -/
theorem pipeline_deterministic
    (parse1 parse2 : String → Option Json)
    (event1 event2 : APIGatewayProxyEvent)
    (handler1 handler2 : LambdaRequest → HandlerOutcome ResponseKind)
    (hp : parse1 = parse2) (he : event1 = event2) (hh : handler1 = handler2) :
    createLambdaRequest parse1 event1 = createLambdaRequest parse2 event2 ∧
    LambdaWrapper.restApiProxy handler1 parse1 event1 =
      LambdaWrapper.restApiProxy handler2 parse2 event2 ∧
    Except.map LambdaProxyResponse.body
        (LambdaWrapper.restApiProxy handler1 parse1 event1) =
      Except.map LambdaProxyResponse.body
        (LambdaWrapper.restApiProxy handler2 parse2 event2) ∧
    Except.map LambdaProxyResponse.headers
        (LambdaWrapper.restApiProxy handler1 parse1 event1) =
      Except.map LambdaProxyResponse.headers
        (LambdaWrapper.restApiProxy handler2 parse2 event2) := by
  subst hp he hh
  exact ⟨rfl, rfl, rfl, rfl⟩

/-- Witness for C9: determinism of the pipeline evaluated at a concrete
parser, event, and handler. -/
theorem pipeline_deterministic_wit :
    parseNone = parseNone ∧ sampleEvent = sampleEvent ∧ okHandler = okHandler ∧
    (createLambdaRequest parseNone sampleEvent = createLambdaRequest parseNone sampleEvent ∧
      LambdaWrapper.restApiProxy okHandler parseNone sampleEvent =
        LambdaWrapper.restApiProxy okHandler parseNone sampleEvent ∧
      Except.map LambdaProxyResponse.body
          (LambdaWrapper.restApiProxy okHandler parseNone sampleEvent) =
        Except.map LambdaProxyResponse.body
          (LambdaWrapper.restApiProxy okHandler parseNone sampleEvent) ∧
      Except.map LambdaProxyResponse.headers
          (LambdaWrapper.restApiProxy okHandler parseNone sampleEvent) =
        Except.map LambdaProxyResponse.headers
          (LambdaWrapper.restApiProxy okHandler parseNone sampleEvent)) :=
  ⟨rfl, rfl, rfl,
   pipeline_deterministic parseNone parseNone sampleEvent sampleEvent
     okHandler okHandler rfl rfl rfl⟩

/-- Claim C6 (corrected): for every response kind,
`createLambdaProxyResponse` attaches exactly the six fixed headers —
content type `application/json`, the four cross-origin headers set to
`*`, and a content length.  Amended: the content length is the
JavaScript string length of the serialized body (UTF-16 code units,
`String(json.length)` in the source), which coincides with the byte
length only for bodies of single-byte characters; the byte-length
reading of the claim fails on non-ASCII payloads (see the
counterexample). -/
theorem proxyResponse_fixed_headers (response : ResponseKind) :
    (createLambdaProxyResponse response).headers =
      [(ResponseHeader.ContentType, "application/json"),
       (ResponseHeader.ContentLength,
         toString (jsStringLength (Json.stringify response.data))),
       (ResponseHeader.AccessControlAllowOrigin, "*"),
       (ResponseHeader.AccessControlAllowHeaders, "*"),
       (ResponseHeader.AccessControlAllowMethods, "*"),
       (ResponseHeader.AccessControlAllowCredentials, "*")] ∧
    (createLambdaProxyResponse response).headers.get "content-type" =
      some "application/json" ∧
    (createLambdaProxyResponse response).headers.get "content-length" =
      some (toString (jsStringLength (createLambdaProxyResponse response).body)) ∧
    (createLambdaProxyResponse response).headers.get "access-control-allow-origin" =
      some "*" ∧
    (createLambdaProxyResponse response).headers.get "access-control-allow-headers" =
      some "*" ∧
    (createLambdaProxyResponse response).headers.get "access-control-allow-methods" =
      some "*" ∧
    (createLambdaProxyResponse response).headers.get "access-control-allow-credentials" =
      some "*" :=
  ⟨rfl, rfl, rfl, rfl, rfl, rfl, rfl⟩

/-- Counterexample for C6 as stated: for the payload `é` the serialized
body occupies 4 UTF-8 bytes but the emitted content-length header says
3 (its JavaScript string length), so the content-length header does not
equal the byte length of the body. -/
theorem proxyResponse_content_length_cex :
    (createLambdaProxyResponse respUnicode).headers.get "content-length" = some "3" ∧
    utf8Length (createLambdaProxyResponse respUnicode).body = 4 ∧
    (createLambdaProxyResponse respUnicode).headers.get "content-length" ≠
      some (toString (utf8Length (createLambdaProxyResponse respUnicode).body)) := by
  refine ⟨rfl, rfl, ?_⟩
  decide

end NodeDi
